import Mathlib

/-
Shallow embedding of the DevOps-agents pipeline (src/main.py and
src/agents/*.py) in Lean 4.

Modelling conventions:
- A Python function that may raise is embedded as a Lean function returning
  `Except String α`; `Except.error msg` models an uncaught Python exception
  whose `str(...)` is `msg`.
- Every external effect performed by `main()` (reading the two environment
  variables, the two artifact file writes, the two `subprocess.run` calls,
  and the Groq chat-completion call) is given to `main` as a field of a
  `MainEnv` record holding that effect's outcome, so that `main` is a pure
  function of the world it observes.  An `Except.error` field value models
  the external operation raising at its call site (e.g. `open` raising
  `OSError`, `subprocess.run` raising `FileNotFoundError`, or the Groq SDK
  raising a transport error).
- pydantic `BaseModel` construction is embedded explicitly: constructing a
  model with a `None` value for a declared `str` field, or constructing a
  model with no arguments when every field is required, yields a
  `ValidationError` (modelled as `Except.error`).
- The f-string templates of the two generators are transcribed verbatim from
  the source (braces and quotes escaped as needed by Lean string syntax).
-/

/-- Result of a completed `subprocess.run(...)` call: the `CompletedProcess`
object with its return code and captured output streams. -/
structure SubprocessResult where
  returncode : Int
  stdout : String
  stderr : String
deriving Repr, DecidableEq

/-- `GitHubActionsConfig` from src/agents/github_actions_agent.py: a pydantic
model whose five fields are all declared without defaults (all required). -/
structure GitHubActionsConfig where
  workflow_name : String
  python_version : String
  run_tests : Bool
  groq_api_endpoint : String
  groq_api_key : String
deriving Repr, DecidableEq

/-- `DockerfileConfig` from src/agents/dockerfile_agent.py: a pydantic model
whose six fields are all declared without defaults (all required). -/
structure DockerfileConfig where
  base_image : String
  expose_port : Int
  copy_source : String
  work_dir : String
  groq_api_endpoint : String
  groq_api_key : String
deriving Repr, DecidableEq

/-- `BuildStatusConfig` from src/agents/build_status_agent.py. -/
structure BuildStatusConfig where
  image_tag : String
deriving Repr, DecidableEq

/-- `BuildPredictorConfig` from src/agents/build_predictor_agent.py
(`model` has the default "llama3-8b-8192"; `groq_api_key` is required). -/
structure BuildPredictorConfig where
  model : String
  groq_api_key : String
deriving Repr, DecidableEq

/-- The `build_data` dictionary assembled in `main()` (src/main.py): its five
keys, with the same types the orchestrator stores in them. -/
structure BuildData where
  dockerfile_exists : Bool
  ci_pipeline_exists : Bool
  last_build_status : String
  python_version : String
  dependencies_updated : Bool
deriving Repr, DecidableEq

/-- The dictionary returned by
`BuildPredictorAgent.predict_build_failure` (src/agents/build_predictor_agent.py):
on success `{"prediction": ..., "status": "success"}` (no "error" key), on
failure `{"error": ..., "status": "error"}` (no "prediction" key).  Absent
keys are modelled as `none`. -/
structure PredictionResult where
  prediction : Option String
  error : Option String
  status : String
deriving Repr, DecidableEq

/-- `BuildStatusAgent.check_build_status` (src/agents/build_status_agent.py).
`inspectRun` is the outcome of
`subprocess.run(["docker", "inspect", image_tag], ...)`: `.ok result` when the
subprocess ran to completion, `.error e` when launching it (or anything else
inside the `try` block) raised an exception with message `e`.  The method
catches every exception and returns a string in all cases. -/
def check_build_status (image_tag : String)
    (inspectRun : Except String SubprocessResult) : String :=
  match inspectRun with
  | .ok result =>
      if result.returncode = 0 then
        "Docker image \x27" ++ image_tag ++ "\x27 exists."
      else
        "Docker image \x27" ++ image_tag ++ "\x27 does not exist."
  | .error e => "Error checking build status: " ++ e

/-- `BuildPredictorAgent.predict_build_failure`
(src/agents/build_predictor_agent.py).  `chatCompletion` is the outcome of
`self.client.chat.completions.create(...)`: `.ok content` when the adapter
returned a completion whose first choice has message content `content`,
`.error e` when the call raised an exception with message `e` (network,
authentication, quota, malformed response, ...).  The method catches every
exception and always returns a dictionary. -/
def predict_build_failure (build_data : BuildData)
    (chatCompletion : Except String String) : PredictionResult :=
  match build_data, chatCompletion with
  | _, .ok content => { prediction := some content, error := none, status := "success" }
  | _, .error e => { prediction := none, error := some e, status := "error" }

/-- `DockerfileAgent.generate_dockerfile` (src/agents/dockerfile_agent.py):
the f-string template, transcribed verbatim. -/
def generate_dockerfile (config : DockerfileConfig) : String :=
  "\nFROM " ++ config.base_image ++
  "\n\nWORKDIR " ++ config.work_dir ++
  "\n\nCOPY " ++ config.copy_source ++
  " .\n\nEXPOSE " ++ toString config.expose_port ++
  "\n\nCMD [\"nginx\", \"-g\", \"daemon off;\"]\n"

/-- `GitHubActionsAgent.generate_pipeline` (src/agents/github_actions_agent.py):
the f-string template, transcribed verbatim (literal `{`/`}` written as
`\x7b`/`\x7d`, literal apostrophes as `\x27`).  Only `workflow_name` and
`python_version` are interpolated. -/
def generate_pipeline (config : GitHubActionsConfig) : String :=
  "\nname: " ++ config.workflow_name ++
  "\n\non:\n  push:\n    branches: [ main ]\n  pull_request:\n    branches: [ main ]\n\npermissions:\n  contents: read\n  pull-requests: write\n\njobs:\n  run-devops-ai:\n    runs-on: ubuntu-latest\n    \n    env:\n      GROQ_API_ENDPOINT: $\x7b\x7b secrets.GROQ_API_ENDPOINT \x7d\x7d  # API endpoint for GROQ\n      GROQ_API_KEY: $\x7b\x7b secrets.GROQ_API_KEY \x7d\x7d           # Authentication key\n      GITHUB_TOKEN: $\x7b\x7b secrets.GH_TOKEN \x7d\x7d               # GitHub access token\n\n    steps:\n    - name: Checkout code\n      uses: actions/checkout@v3\n\n    - name: Set up Python " ++
  config.python_version ++
  "\n      uses: actions/setup-python@v4\n      with:\n        python-version: " ++
  config.python_version ++
  "\n\n    - name: Cache pip packages\n      uses: actions/cache@v3\n      with:\n        path: ~/.cache/pip\n        key: $\x7b\x7b runner.os \x7d\x7d-pip-$\x7b\x7b hashFiles(\x27**/requirements.txt\x27) \x7d\x7d\n        restore-keys: |\n          $\x7b\x7b runner.os \x7d\x7d-pip-\n\n    - name: Install dependencies\n      run: |\n        python -m pip install --upgrade pip\n        pip install -r requirements.txt\n\n    - name: Set up Docker Buildx\n      uses: docker/setup-buildx-action@v2\n\n    - name: Run DevOps AI Team\n      run: |\n        python main.py\n\n    - name: Start Docker Container\n      run: |\n        docker run -d -p 80:80 myapp:latest\n        sleep 5  # Give nginx a moment to start\n\n    - name: Test Docker Container\n      run: |\n        if docker ps | grep -q myapp; then\n          echo \"🔍 Testing Docker container endpoints...\"\n          \n          if curl -I http://localhost/talkitdoit.html | grep -q \"200 OK\"; then\n            echo \"✅ talkitdoit.html test passed! 🚀\"\n          else\n            echo \"❌ talkitdoit.html test failed 😢\"\n            exit 1\n          fi\n          \n          if curl -I http://localhost/index.html | grep -q \"200 OK\"; then\n            echo \"✅ index.html test passed! 🎯\"\n          else\n            echo \"❌ index.html test failed 😢\"\n            exit 1\n          fi\n          \n          echo \"🎉 All Docker container tests passed successfully! 🌟\"\n        else\n          echo \"⚠️ Docker container not running, skipping tests 🤔\"\n          exit 1\n        fi\n        "

/-- pydantic validation of a declared `str` field receiving the result of
`os.getenv(...)`: `os.getenv` returns `None` when the variable is unset, and
pydantic rejects `None` for a `str` field with a `ValidationError`. -/
def validateStr (field : String) (value : Option String) : Except String String :=
  match value with
  | some s => .ok s
  | none => .error ("ValidationError: " ++ field ++ " none is not an allowed value")

/-- The outcomes of every external effect `main()` (src/main.py) performs, in
the order the code reaches them.  `main` observes nothing else about the
world. -/
structure MainEnv where
  /-- `os.getenv("GROQ_API_ENDPOINT")` (None when unset). -/
  groq_api_endpoint_env : Option String
  /-- `os.getenv("GROQ_API_KEY")` (None when unset). -/
  groq_api_key_env : Option String
  /-- Outcome of `open(".github/workflows/CI3.yml", "w")` + write. -/
  writeWorkflowFile : Except String Unit
  /-- Outcome of `open("Dockerfile", "w")` + write. -/
  writeDockerfileFile : Except String Unit
  /-- Outcome of `subprocess.run(["docker", "build", "-t", "myapp:latest", "."], ...)`. -/
  dockerBuildRun : Except String SubprocessResult
  /-- Outcome of `subprocess.run(["docker", "inspect", "myapp:latest"], ...)`. -/
  dockerInspectRun : Except String SubprocessResult
  /-- Outcome of `self.client.chat.completions.create(...)` in the predictor. -/
  chatCompletionCreate : Except String String

/-- The values `main()` computes and prints during one run (its observable
per-phase outputs, in order): the generated pipeline text, the generated
Dockerfile text, the completed build process, the printed build status
string, the assembled `build_data` dictionary, and the printed prediction
dictionary. -/
structure MainRun where
  pipeline : String
  dockerfile : String
  build_result : SubprocessResult
  status : String
  build_data : BuildData
  prediction : PredictionResult
deriving Repr, DecidableEq

/-- `main()` from src/main.py, embedded statement by statement.  The result is
`.ok run` when the function runs to completion, and `.error e` when an
uncaught exception with message `e` propagates out of `main` (there is no
`try`/`except` anywhere in `main` itself). -/
def Main.main (env : MainEnv) : Except String MainRun := do
  -- 1. Create GitHub Actions Pipeline
  let ep1 ← validateStr "groq_api_endpoint" env.groq_api_endpoint_env
  let key1 ← validateStr "groq_api_key" env.groq_api_key_env
  let gha_config : GitHubActionsConfig :=
    { workflow_name := "CI Pipeline", python_version := "3.13.0", run_tests := true,
      groq_api_endpoint := ep1, groq_api_key := key1 }
  let pipeline := generate_pipeline gha_config
  let _ ← env.writeWorkflowFile
  -- 2. Create Dockerfile
  let ep2 ← validateStr "groq_api_endpoint" env.groq_api_endpoint_env
  let key2 ← validateStr "groq_api_key" env.groq_api_key_env
  let docker_config : DockerfileConfig :=
    { base_image := "nginx:alpine", expose_port := 80, copy_source := "./html",
      work_dir := "/usr/share/nginx/html", groq_api_endpoint := ep2, groq_api_key := key2 }
  let dockerfile := generate_dockerfile docker_config
  let _ ← env.writeDockerfileFile
  -- 3. Build and Check Status
  let status_config : BuildStatusConfig := { image_tag := "myapp:latest" }
  let build_result ← env.dockerBuildRun
  let status := check_build_status status_config.image_tag env.dockerInspectRun
  -- 4. Predict Build Success/Failure
  let key3 ← validateStr "groq_api_key" env.groq_api_key_env
  let _predictor_config : BuildPredictorConfig :=
    { model := "llama3-8b-8192", groq_api_key := key3 }
  let build_data : BuildData :=
    { dockerfile_exists := true, ci_pipeline_exists := true,
      last_build_status := status, python_version := "3.13.0",
      dependencies_updated := true }
  let prediction := predict_build_failure build_data env.chatCompletionCreate
  return { pipeline, dockerfile, build_result, status, build_data, prediction }

/-- A Python value as it can appear in the dictionary returned by a remote
configuration query. -/
inductive PyValue where
  | str (s : String)
  | int (n : Int)
  | bool (b : Bool)
deriving Repr, DecidableEq

/-- `dict.get(key, default)` on an association-list model of a Python dict. -/
def dictGet (d : List (String × PyValue)) (key : String) (default : PyValue) : PyValue :=
  match d.lookup key with
  | some v => v
  | none => default

/-- pydantic validation of a `str` field value. -/
def asStr (field : String) (v : PyValue) : Except String String :=
  match v with
  | .str s => .ok s
  | _ => .error ("ValidationError: " ++ field ++ " str type expected")

/-- pydantic validation of an `int` field value. -/
def asInt (field : String) (v : PyValue) : Except String Int :=
  match v with
  | .int n => .ok n
  | _ => .error ("ValidationError: " ++ field ++ " value is not a valid integer")

/-- pydantic validation of a `bool` field value. -/
def asBool (field : String) (v : PyValue) : Except String Bool :=
  match v with
  | .bool b => .ok b
  | _ => .error ("ValidationError: " ++ field ++ " value could not be parsed to a boolean")

/-- The methods defined on `GROQClient` in src/utils/groq_client.py. -/
def GROQClient.methodNames : List String :=
  ["send_inference_request", "send_code_review_request", "send_chat_create_request"]

/-- Whether `GROQClient` defines a `query` method (it does not: attribute
lookup of `query` on a `GROQClient` instance raises `AttributeError`). -/
def GROQClient.hasQueryMethod : Bool :=
  GROQClient.methodNames.contains "query"

/-- `GitHubActionsConfig()` with no arguments: every field of the pydantic
model is required (none has a default), so construction raises a
`ValidationError` instead of producing a defaulted configuration. -/
def GitHubActionsConfig.zeroArgInit : Except String GitHubActionsConfig :=
  .error "ValidationError: 5 validation errors for GitHubActionsConfig: workflow_name, python_version, run_tests, groq_api_endpoint, groq_api_key field required"

/-- `DockerfileConfig()` with no arguments: every field of the pydantic model
is required (none has a default), so construction raises a
`ValidationError` instead of producing a defaulted configuration. -/
def DockerfileConfig.zeroArgInit : Except String DockerfileConfig :=
  .error "ValidationError: 6 validation errors for DockerfileConfig: base_image, expose_port, copy_source, work_dir, groq_api_endpoint, groq_api_key field required"

/-- Python truthiness of a query result: `None` and the empty dict are falsy,
a non-empty dict is truthy (`if result:` in both `fetch_config` bodies). -/
def resultTruthy (result : Option (List (String × PyValue))) : Bool :=
  match result with
  | some d => !d.isEmpty
  | none => false

/-- The body of `GitHubActionsAgent.fetch_config`
(src/agents/github_actions_agent.py) from the `if result:` test onward, as
written, given the value `result` that `self.groq_client.query(groq_query)`
would have returned: the truthy branch rebuilds the configuration from the
query result with `.get(key, default)` defaults, the falsy branch calls
`GitHubActionsConfig()`. -/
def GitHubActionsAgent.fetch_config_update
    (result : Option (List (String × PyValue))) : Except String GitHubActionsConfig :=
  if resultTruthy result then do
    let d := result.getD []
    let wn ← asStr "workflow_name" (dictGet d "workflowName" (.str "CI Pipeline"))
    let pv ← asStr "python_version" (dictGet d "pythonVersion" (.str "3.13.0"))
    let rt ← asBool "run_tests" (dictGet d "runTests" (.bool true))
    let ge ← asStr "groq_api_endpoint" (dictGet d "groqApiEndpoint" (.str ""))
    let gk ← asStr "groq_api_key" (dictGet d "groqApiKey" (.str ""))
    .ok { workflow_name := wn, python_version := pv, run_tests := rt,
          groq_api_endpoint := ge, groq_api_key := gk }
  else
    GitHubActionsConfig.zeroArgInit

/-- `GitHubActionsAgent.fetch_config` as the code executes: the attribute
lookup `self.groq_client.query` raises `AttributeError` because `GROQClient`
defines no `query` method, so the body below the call is never reached.
`result` is the value the query would have produced. -/
def GitHubActionsAgent.fetch_config
    (result : Option (List (String × PyValue))) : Except String GitHubActionsConfig :=
  if GROQClient.hasQueryMethod then
    GitHubActionsAgent.fetch_config_update result
  else
    .error "AttributeError: \x27GROQClient\x27 object has no attribute \x27query\x27"

/-- The body of `DockerfileAgent.fetch_config` (src/agents/dockerfile_agent.py)
from the `if result:` test onward, as written, given the value `result` that
`self.groq_client.query(groq_query)` would have returned. -/
def DockerfileAgent.fetch_config_update
    (result : Option (List (String × PyValue))) : Except String DockerfileConfig :=
  if resultTruthy result then do
    let d := result.getD []
    let bi ← asStr "base_image" (dictGet d "baseImage" (.str "nginx:alpine"))
    let port ← asInt "expose_port" (dictGet d "exposePort" (.int 80))
    let cs ← asStr "copy_source" (dictGet d "copySource" (.str "./html"))
    let wd ← asStr "work_dir" (dictGet d "workDir" (.str "/usr/share/nginx/html"))
    let ge ← asStr "groq_api_endpoint" (dictGet d "groqApiEndpoint" (.str ""))
    let gk ← asStr "groq_api_key" (dictGet d "groqApiKey" (.str ""))
    .ok { base_image := bi, expose_port := port, copy_source := cs,
          work_dir := wd, groq_api_endpoint := ge, groq_api_key := gk }
  else
    DockerfileConfig.zeroArgInit

/-- `DockerfileAgent.fetch_config` as the code executes: the attribute lookup
`self.groq_client.query` raises `AttributeError` because `GROQClient` defines
no `query` method, so the body below the call is never reached. -/
def DockerfileAgent.fetch_config
    (result : Option (List (String × PyValue))) : Except String DockerfileConfig :=
  if GROQClient.hasQueryMethod then
    DockerfileAgent.fetch_config_update result
  else
    .error "AttributeError: \x27GROQClient\x27 object has no attribute \x27query\x27"

/-- Number of (possibly overlapping) occurrences of `needle` in `hay`. -/
def countOccs (needle : List Char) : List Char → Nat
  | [] => 0
  | c :: rest =>
      (if needle.isPrefixOf (c :: rest) then 1 else 0) + countOccs needle rest

/-- Number of occurrences of the substring `needle` in the string `hay`. -/
def countSubstrings (needle hay : String) : Nat :=
  countOccs needle.data hay.data

/-- Helper: the "does not exist" message never equals the "exists" message for
the same tag (their lengths differ). -/
theorem notExistsMsg_ne_existsMsg (tag : String) :
    "Docker image \x27" ++ tag ++ "\x27 does not exist."
      ≠ "Docker image \x27" ++ tag ++ "\x27 exists." := by
  intro h
  have hl := congrArg String.length h
  rw [String.length_append, String.length_append, String.length_append,
    String.length_append] at hl
  have e1 : ("\x27 does not exist." : String).length = 17 := rfl
  have e2 : ("\x27 exists." : String).length = 9 := rfl
  rw [e1, e2] at hl
  omega

/-- Helper: the diagnostic message returned when the inspect call raises never
equals the "exists" message (their first characters differ). -/
theorem errMsg_ne_existsMsg (tag e : String) :
    "Error checking build status: " ++ e
      ≠ "Docker image \x27" ++ tag ++ "\x27 exists." := by
  intro h
  have hd := congrArg String.data h
  simp only [String.data_append, List.cons_append] at hd
  injection hd with hc _
  exact absurd hc (by decide)

/-- Claim C4: `check_build_status` reports the image as present (the
"... exists." message) exactly when the inspect subprocess exits with code 0;
a non-zero exit yields the "... does not exist." message, and a raised error
(launch failure or otherwise) yields the diagnostic
"Error checking build status: ..." message, which is never the present
message. -/
theorem c4_present_iff_exit_zero (image_tag : String) (rc : Int) (so se e : String) :
    (check_build_status image_tag (.ok ⟨rc, so, se⟩)
        = "Docker image \x27" ++ image_tag ++ "\x27 exists." ↔ rc = 0)
    ∧ check_build_status image_tag (.error e) = "Error checking build status: " ++ e
    ∧ check_build_status image_tag (.error e)
        ≠ "Docker image \x27" ++ image_tag ++ "\x27 exists."
    ∧ (rc ≠ 0 → check_build_status image_tag (.ok ⟨rc, so, se⟩)
        = "Docker image \x27" ++ image_tag ++ "\x27 does not exist.") := by
  refine ⟨⟨?_, ?_⟩, rfl, errMsg_ne_existsMsg image_tag e, ?_⟩
  · intro h
    by_contra hrc
    simp only [check_build_status, if_neg hrc] at h
    exact notExistsMsg_ne_existsMsg image_tag h
  · intro h
    subst h
    rfl
  · intro hrc
    simp only [check_build_status, if_neg hrc]

/-- Claim C4 witness: concrete instance of the theorem at tag "myapp:latest",
exit code 1 and error message "boom". -/
theorem c4_witness :
    check_build_status "myapp:latest" (.ok ⟨1, "", ""⟩)
      = "Docker image \x27" ++ "myapp:latest" ++ "\x27 does not exist." :=
  (c4_present_iff_exit_zero "myapp:latest" 1 "" "" "boom").2.2.2 (by decide)

/-- Claim C5 counterexample: an adapter failure whose exception message is
empty (Python `str(e)` can be `""`, e.g. for `Exception()`) yields
`{status: "error", error: ""}`: the status is tagged `error` but the attached
error message is empty, refuting the claim's non-emptiness guarantee. -/
theorem c5_counterexample :
    (predict_build_failure ⟨true, true, "absent", "3.13.0", true⟩ (.error "")).status = "error"
    ∧ (predict_build_failure ⟨true, true, "absent", "3.13.0", true⟩ (.error "")).error = some ""
    ∧ ¬ ∃ msg, (predict_build_failure ⟨true, true, "absent", "3.13.0", true⟩
        (.error "")).error = some msg ∧ msg ≠ "" := by
  refine ⟨rfl, rfl, ?_⟩
  rintro ⟨msg, hm, hne⟩
  injection hm with h
  exact hne h.symm

/-- Claim C5 (amended): `predict_build_failure` is total — it never raises past
its own boundary; for every build report and adapter outcome it returns a
well-formed result: on adapter success status "success" with the adapter's
generated text, and on any adapter failure status "error" with the raised
exception's message attached as the error field (which is empty exactly when
the exception's message is). -/
theorem c5_predict_total_tagged_result (bd : BuildData) (t e : String) :
    predict_build_failure bd (.ok t)
      = { prediction := some t, error := none, status := "success" }
    ∧ predict_build_failure bd (.error e)
      = { prediction := none, error := some e, status := "error" } :=
  ⟨rfl, rfl⟩

/-- Claim C7: both artifact generators are pure, deterministic functions of
their configuration: equal configurations produce byte-identical output text.
(In the source both bodies are single f-string expressions with no I/O or
network calls, which is why they embed as total Lean functions.) -/
theorem c7_generators_pure_deterministic (c c' : DockerfileConfig)
    (g g' : GitHubActionsConfig) (hc : c = c') (hg : g = g') :
    generate_dockerfile c = generate_dockerfile c'
    ∧ generate_pipeline g = generate_pipeline g' := by
  subst hc
  subst hg
  exact ⟨rfl, rfl⟩

/-- Claim C7 witness: the determinism theorem applied at the concrete
configurations used by the orchestrator. -/
theorem c7_witness :
    generate_dockerfile ⟨"nginx:alpine", 80, "./html", "/usr/share/nginx/html", "", ""⟩
      = generate_dockerfile ⟨"nginx:alpine", 80, "./html", "/usr/share/nginx/html", "", ""⟩
    ∧ generate_pipeline ⟨"CI Pipeline", "3.13.0", true, "", ""⟩
      = generate_pipeline ⟨"CI Pipeline", "3.13.0", true, "", ""⟩ :=
  c7_generators_pure_deterministic _ _ _ _ rfl rfl

/-- Claim C8: for the configuration with base_image "nginx:alpine",
expose_port 80, copy_source "./html" and work_dir "/usr/share/nginx/html",
the generated Dockerfile contains exactly one "FROM nginx:alpine", exactly one
"EXPOSE 80", exactly one "WORKDIR /usr/share/nginx/html", and a COPY
instruction referencing "./html". -/
theorem c8_dockerfile_scenario :
    countSubstrings "FROM nginx:alpine"
      (generate_dockerfile ⟨"nginx:alpine", 80, "./html", "/usr/share/nginx/html", "", ""⟩) = 1
    ∧ countSubstrings "EXPOSE 80"
      (generate_dockerfile ⟨"nginx:alpine", 80, "./html", "/usr/share/nginx/html", "", ""⟩) = 1
    ∧ countSubstrings "WORKDIR /usr/share/nginx/html"
      (generate_dockerfile ⟨"nginx:alpine", 80, "./html", "/usr/share/nginx/html", "", ""⟩) = 1
    ∧ 0 < countSubstrings "COPY ./html"
      (generate_dockerfile ⟨"nginx:alpine", 80, "./html", "/usr/share/nginx/html", "", ""⟩) := by
  refine ⟨?_, ?_, ?_, ?_⟩ <;> decide

/-- Claim C9: the generated workflow text depends only on the `workflow_name`
and `python_version` fields of the configuration — two configurations agreeing
on those two fields (but possibly differing in `run_tests`,
`groq_api_endpoint` or `groq_api_key`) produce identical text. -/
theorem c9_pipeline_depends_only_on_name_and_version (g g' : GitHubActionsConfig)
    (h1 : g.workflow_name = g'.workflow_name)
    (h2 : g.python_version = g'.python_version) :
    generate_pipeline g = generate_pipeline g' := by
  unfold generate_pipeline
  rw [h1, h2]

/-- Claim C9 witness: two configurations differing in `run_tests` and both
credential fields produce the same pipeline text. -/
theorem c9_witness :
    generate_pipeline ⟨"CI Pipeline", "3.13.0", true, "https://api.groq.example", "gsk-test"⟩
      = generate_pipeline ⟨"CI Pipeline", "3.13.0", false, "", ""⟩ :=
  c9_pipeline_depends_only_on_name_and_version _ _ rfl rfl

/-- Claim C1 counterexample: with every external operation succeeding except
the workflow-file write (phase (a)'s `open`/`write` raises `OSError`), `main`
propagates the raw exception out of the run: no tagged `Failed(reason)` result
is produced, no sentinel payload is handed to later phases, and no later phase
executes — refuting the claim that every phase is wrapped. -/
theorem c1_counterexample :
    Main.main
      { groq_api_endpoint_env := some "https://api.groq.example",
        groq_api_key_env := some "gsk-test",
        writeWorkflowFile := .error "OSError: could not write .github/workflows/CI3.yml",
        writeDockerfileFile := .ok (),
        dockerBuildRun := .ok ⟨0, "", ""⟩,
        dockerInspectRun := .ok ⟨0, "", ""⟩,
        chatCompletionCreate := .ok "Build looks healthy." }
      = .error "OSError: could not write .github/workflows/CI3.yml" := rfl

/-- Claim C1 (amended): there is no orchestrator-level `execute` wrapper; the
only failures converted into in-band results are those raised inside the
inspection step of phase (c) (absorbed by `check_build_status` into a
diagnostic string) and inside phase (d)'s adapter call (absorbed by
`predict_build_failure` into an error-status dictionary) — with those two
failing, the run still completes with their diagnostics as payloads — while a
failure raised writing an artifact (or launching the build) propagates out of
`main` as a raw exception. -/
theorem c1_only_inspection_and_prediction_absorb_failures
    (ep key : String) (br : SubprocessResult) (ei ec wmsg : String) :
    Main.main
      { groq_api_endpoint_env := some ep, groq_api_key_env := some key,
        writeWorkflowFile := .ok (), writeDockerfileFile := .ok (),
        dockerBuildRun := .ok br, dockerInspectRun := .error ei,
        chatCompletionCreate := .error ec }
      = .ok
        { pipeline := generate_pipeline ⟨"CI Pipeline", "3.13.0", true, ep, key⟩,
          dockerfile := generate_dockerfile
            ⟨"nginx:alpine", 80, "./html", "/usr/share/nginx/html", ep, key⟩,
          build_result := br,
          status := "Error checking build status: " ++ ei,
          build_data := ⟨true, true, "Error checking build status: " ++ ei, "3.13.0", true⟩,
          prediction := ⟨none, some ec, "error"⟩ }
    ∧ Main.main
      { groq_api_endpoint_env := some ep, groq_api_key_env := some key,
        writeWorkflowFile := .error wmsg, writeDockerfileFile := .ok (),
        dockerBuildRun := .ok br, dockerInspectRun := .ok ⟨0, "", ""⟩,
        chatCompletionCreate := .ok "ok" }
      = .error wmsg :=
  ⟨rfl, rfl⟩

/-- Claim C2 counterexample: a failing Dockerfile write (phase (b)) aborts the
whole run — phases (c) and (d) never execute and `main` ends with a raw
exception instead of any four-entry report, refuting the claim that every
combination of per-phase failures still yields a four-phase run. -/
theorem c2_counterexample :
    Main.main
      { groq_api_endpoint_env := some "https://api.groq.example",
        groq_api_key_env := some "gsk-test",
        writeWorkflowFile := .ok (),
        writeDockerfileFile := .error "OSError: read-only file system: Dockerfile",
        dockerBuildRun := .ok ⟨0, "", ""⟩,
        dockerInspectRun := .ok ⟨0, "", ""⟩,
        chatCompletionCreate := .ok "Build looks healthy." }
      = .error "OSError: read-only file system: Dockerfile" := rfl

/-- Claim C2 (amended): provided both environment variables are set, both
artifact writes succeed and the build subprocess launches, the run executes
all four phases to completion no matter how the inspection and prediction
phases fare (they may fail arbitrarily); the code returns no RunReport
structure — the per-phase outcomes are only the printed values collected
here — and a failure in an artifact write or the build launch aborts the run
instead. -/
theorem c2_all_phases_complete_when_writes_and_build_succeed
    (env : MainEnv) (ep key : String) (br : SubprocessResult)
    (hep : env.groq_api_endpoint_env = some ep)
    (hkey : env.groq_api_key_env = some key)
    (hw1 : env.writeWorkflowFile = .ok ())
    (hw2 : env.writeDockerfileFile = .ok ())
    (hb : env.dockerBuildRun = .ok br) :
    ∃ r : MainRun, Main.main env = .ok r
      ∧ r.status = check_build_status "myapp:latest" env.dockerInspectRun
      ∧ r.prediction = predict_build_failure r.build_data env.chatCompletionCreate := by
  obtain ⟨f1, f2, f3, f4, f5, f6, f7⟩ := env
  simp only at hep hkey hw1 hw2 hb
  subst hep hkey hw1 hw2 hb
  exact ⟨_, rfl, rfl, rfl⟩

/-- Claim C2 witness: the amended theorem applied at a concrete environment
whose inspection reports exit code 1 and whose adapter call fails. -/
theorem c2_witness :
    ∃ r : MainRun,
      Main.main
        { groq_api_endpoint_env := some "https://api.groq.example",
          groq_api_key_env := some "gsk-test",
          writeWorkflowFile := .ok (), writeDockerfileFile := .ok (),
          dockerBuildRun := .ok ⟨0, "ok", ""⟩,
          dockerInspectRun := .ok ⟨1, "", "No such object: myapp:latest"⟩,
          chatCompletionCreate := .error "APIConnectionError: Connection error." }
        = .ok r
      ∧ r.status = check_build_status "myapp:latest" (.ok ⟨1, "", "No such object: myapp:latest"⟩)
      ∧ r.prediction = predict_build_failure r.build_data
          (.error "APIConnectionError: Connection error.") :=
  c2_all_phases_complete_when_writes_and_build_succeed _ _ _ _ rfl rfl rfl rfl rfl

/-- Claim C3 counterexample: a launch failure of the build subprocess — part of
phase (c), e.g. the docker binary missing — propagates out of `main`, so phase
(d) never executes and no BuildReport is handed to the prediction stage,
refuting the claim for that phase-(c) outcome. -/
theorem c3_counterexample :
    Main.main
      { groq_api_endpoint_env := some "https://api.groq.example",
        groq_api_key_env := some "gsk-test",
        writeWorkflowFile := .ok (), writeDockerfileFile := .ok (),
        dockerBuildRun := .error "FileNotFoundError: No such file or directory: \x27docker\x27",
        dockerInspectRun := .ok ⟨0, "", ""⟩,
        chatCompletionCreate := .ok "Build looks healthy." }
      = .error "FileNotFoundError: No such file or directory: \x27docker\x27" := rfl

/-- Claim C3 (amended): once the build subprocess itself completes (with any
exit code, success or failure), every outcome of the inspection step —
exit 0, non-zero exit, or a raised error — still reaches phase (d): the
prediction stage is invoked with a `build_data` dictionary whose five fields
are all populated, its `last_build_status` field carrying the inspection's
result string (the explicit exists / does-not-exist / error-diagnostic
marker); only a launch failure of the build subprocess prevents (d). -/
theorem c3_prediction_runs_for_every_inspection_outcome
    (ep key : String) (br : SubprocessResult)
    (inspectRun : Except String SubprocessResult) (chat : Except String String) :
    Main.main
      { groq_api_endpoint_env := some ep, groq_api_key_env := some key,
        writeWorkflowFile := .ok (), writeDockerfileFile := .ok (),
        dockerBuildRun := .ok br, dockerInspectRun := inspectRun,
        chatCompletionCreate := chat }
      = .ok
        { pipeline := generate_pipeline ⟨"CI Pipeline", "3.13.0", true, ep, key⟩,
          dockerfile := generate_dockerfile
            ⟨"nginx:alpine", 80, "./html", "/usr/share/nginx/html", ep, key⟩,
          build_result := br,
          status := check_build_status "myapp:latest" inspectRun,
          build_data := ⟨true, true, check_build_status "myapp:latest" inspectRun,
            "3.13.0", true⟩,
          prediction := predict_build_failure
            ⟨true, true, check_build_status "myapp:latest" inspectRun, "3.13.0", true⟩
            chat } := rfl

/-- Claim C6: evaluation of `GitHubActionsAgent.fetch_config` at the failing
inputs.  Every call raises `AttributeError` because `GROQClient` defines no
`query` method; and even granting the query call, the fallback branch taken
for a failed or empty remote result calls `GitHubActionsConfig()`, which
raises a `ValidationError` (every field of the model is required, none has a
default) instead of substituting the documented defaults. -/
theorem c6_fetch_config_fallback_raises :
    GitHubActionsAgent.fetch_config none
      = .error "AttributeError: \x27GROQClient\x27 object has no attribute \x27query\x27"
    ∧ GitHubActionsAgent.fetch_config_update none = GitHubActionsConfig.zeroArgInit
    ∧ GitHubActionsAgent.fetch_config_update (some [])
      = .error "ValidationError: 5 validation errors for GitHubActionsConfig: workflow_name, python_version, run_tests, groq_api_endpoint, groq_api_key field required"
    ∧ DockerfileAgent.fetch_config_update none = DockerfileConfig.zeroArgInit :=
  ⟨rfl, rfl, rfl, rfl⟩

/-- Claim C10: evaluation of `DockerfileAgent.fetch_config` at a non-empty
query result lacking the credential keys.  The call raises `AttributeError`
(`GROQClient` has no `query` method) before any replacement can happen, so the
agent's stored configuration is never replaced; the update expression as
written in the truthy branch would indeed produce a configuration whose
credential fields default to the empty string. -/
theorem c10_fetch_config_attribute_error :
    DockerfileAgent.fetch_config (some [("baseImage", .str "httpd:2.4")])
      = .error "AttributeError: \x27GROQClient\x27 object has no attribute \x27query\x27"
    ∧ DockerfileAgent.fetch_config_update (some [("baseImage", .str "httpd:2.4")])
      = .ok ⟨"httpd:2.4", 80, "./html", "/usr/share/nginx/html", "", ""⟩ :=
  ⟨rfl, rfl⟩
